import Mathlib

/-!
Shallow embedding of the EcoScan-AI classification-result interpreter
(`handleDetectionResult`, `handleInferenceError`, `scheduleInference` in
`src/app/camera.tsx`) and of the tip selector (`generateTip` in
`src/lib/utils/tipGenerator.js`), together with theorems settling the
frozen claims about them.

Confidence values are modelled as rationals; the only operations the code
performs on them are comparisons against the literal thresholds, so the
rational model agrees with the JavaScript number semantics at every input
used here.  The JavaScript `Math.random()`-based pool indexing is modelled
by an explicit index source `r : Nat → Nat`: a call that draws from a pool
of length `n` uses index `r n % n`, which ranges over exactly the indices
`Math.floor(Math.random() * n)` can produce.  `generateTip`'s unbounded
recursion is modelled with explicit fuel; `none` means the computation did
not complete within the given recursion depth (at any depth, for the
divergent input).
-/

namespace EcoScan

/-- Threshold constants from `src/app/camera.tsx` (lines 42-46). -/
def CONFIDENCE_DISPLAY_THRESHOLD : ℚ := 3/10

def LOW_CONFIDENCE_THRESHOLD : ℚ := 1/10

def MAX_INFERENCE_ERRORS : Nat := 3

def NO_DETECTION_THRESHOLD : Nat := 5

/-- A raw classifier output `{category, confidence, timestamp}`. -/
structure ClassificationResult where
  category : String
  confidence : ℚ
  timestamp : Int
  deriving Repr, DecidableEq

/-- The object passed to `setDetectionResult`; absent boolean fields of the
JavaScript object literals are `false`. -/
structure DetectionDisplay where
  category : String
  confidence : ℚ
  timestamp : Int
  isHelpMessage : Bool := false
  isLowConfidence : Bool := false
  isError : Bool := false
  deriving Repr, DecidableEq

/-- The camera screen's rolling state: `noDetectionCount`,
`inferenceErrors` and `lowLightWarning` component state variables. -/
structure CameraState where
  noDetectionCount : Nat
  inferenceErrors : Nat
  lowLightWarning : Bool
  deriving Repr, DecidableEq

/-- Session-start state: both counters 0, no warning. -/
def initialCameraState : CameraState :=
  { noDetectionCount := 0, inferenceErrors := 0, lowLightWarning := false }

/-- `handleDetectionResult` from `src/app/camera.tsx` lines 179-223,
as a function from current state and classifier result to the updated
state and the object passed to `setDetectionResult`.  In the
low-confidence branch the code sets the low-light warning when
`result.confidence < 0.05` and otherwise leaves it as it was (the
3-second timeout clearing is real time, outside this model); the
display-worthy branch clears it. -/
def handleDetectionResult (st : CameraState) (result : ClassificationResult) :
    CameraState × DetectionDisplay :=
  if result.confidence < LOW_CONFIDENCE_THRESHOLD then
    let newNoDetectionCount := st.noDetectionCount + 1
    let newLowLight := if result.confidence < 5/100 then true else st.lowLightWarning
    if newNoDetectionCount ≥ NO_DETECTION_THRESHOLD then
      ({ st with noDetectionCount := 0, lowLightWarning := newLowLight },
       { category := "Try adjusting camera angle or lighting",
         confidence := result.confidence, timestamp := result.timestamp,
         isHelpMessage := true })
    else
      ({ st with noDetectionCount := newNoDetectionCount, lowLightWarning := newLowLight },
       { category := "No clear object detected",
         confidence := result.confidence, timestamp := result.timestamp })
  else if result.confidence ≥ CONFIDENCE_DISPLAY_THRESHOLD then
    ({ st with noDetectionCount := 0, lowLightWarning := false },
     { category := result.category,
       confidence := result.confidence, timestamp := result.timestamp })
  else
    (st,
     { category := "Possible " ++ result.category,
       confidence := result.confidence, timestamp := result.timestamp,
       isLowConfidence := true })

/-- Substring membership, JavaScript `String.prototype.includes`, on
character lists. -/
def containsSub (pat : List Char) : List Char → Bool
  | [] => pat.isEmpty
  | c :: rest => pat.isPrefixOf (c :: rest) || containsSub pat rest

/-- JavaScript `s.includes(pattern)`. -/
def jsIncludes (s pattern : String) : Bool :=
  containsSub pattern.toList s.toList

/-- Remove the first occurrence of `pat` from a character list; identity
when `pat` does not occur. -/
def removeFirstSub (pat : List Char) : List Char → List Char
  | [] => []
  | c :: rest =>
    if pat.isPrefixOf (c :: rest) then (c :: rest).drop pat.length
    else c :: removeFirstSub pat rest

/-- JavaScript `s.replace(pattern, "")` with a string pattern: deletes the
first occurrence of `pattern` only. -/
def jsReplaceFirst (s pattern : String) : String :=
  ⟨removeFirstSub pattern.toList s.toList⟩

/-- JavaScript `category.charAt(0).toUpperCase() + category.slice(1).toLowerCase()`
(the inputs here are ASCII, where `Char.toUpper`/`Char.toLower` agree with
the JavaScript case maps). -/
def jsCapitalize (s : String) : String :=
  match s.toList with
  | [] => ""
  | c :: rest => ⟨c.toUpper :: rest.map Char.toLower⟩

/-- `categorizeError` body of `handleInferenceError` (`src/app/camera.tsx`
lines 230-245): the display label and the `isRecoverable` flag derived
from the error message by first-match substring tests. -/
def categorizeError (msg : String) : String × Bool :=
  if jsIncludes msg "timeout" then
    ("Detection taking too long - try again", true)
  else if jsIncludes msg "camera" then
    ("Camera error - check permissions", false)
  else if jsIncludes msg "model" || jsIncludes msg "tensor" then
    ("AI model error - restart app if this persists", false)
  else if jsIncludes msg "memory" then
    ("Low memory - close other apps", false)
  else
    ("Detection error", true)

/-- Outcome of `handleInferenceError`: the error display label, whether
the error was categorized recoverable, and whether the blocking alert is
shown. -/
structure InferenceErrorOutcome where
  category : String
  isRecoverable : Bool
  showAlert : Bool
  deriving Repr, DecidableEq

/-- `handleInferenceError` from `src/app/camera.tsx` lines 229-267, given
the already-incremented error count: categorizes the message and shows
the alert when `errorCount >= MAX_INFERENCE_ERRORS && !isRecoverable`. -/
def handleInferenceError (msg : String) (errorCount : Nat) : InferenceErrorOutcome :=
  let categorized := categorizeError msg
  { category := categorized.1,
    isRecoverable := categorized.2,
    showAlert := decide (errorCount ≥ MAX_INFERENCE_ERRORS) && !categorized.2 }

/-- The error path of `scheduleInference` (`src/app/camera.tsx` lines
160-168): increments `inferenceErrors` and hands the new count to
`handleInferenceError`. -/
def scheduleInferenceError (st : CameraState) (msg : String) :
    CameraState × InferenceErrorOutcome :=
  let newErrorCount := st.inferenceErrors + 1
  ({ st with inferenceErrors := newErrorCount }, handleInferenceError msg newErrorCount)

/-- The success path of `scheduleInference` (`src/app/camera.tsx` lines
154-158): resets `inferenceErrors` to 0, then handles the result. -/
def scheduleInferenceSuccess (st : CameraState) (result : ClassificationResult) :
    CameraState × DetectionDisplay :=
  handleDetectionResult { st with inferenceErrors := 0 } result

/-- Feed a list of classifier results through `handleDetectionResult`,
collecting the emitted displays. -/
def runDetections : CameraState → List ClassificationResult →
    CameraState × List DetectionDisplay
  | st, [] => (st, [])
  | st, res :: rest =>
    let step := handleDetectionResult st res
    let tail := runDetections step.1 rest
    (tail.1, step.2 :: tail.2)

/-- A confidence-0.05 classifier result, used by the round-trip scenario. -/
def lowResult : ClassificationResult :=
  { category := "Trash", confidence := 1/20, timestamp := 0 }

/-! Tip pools from `src/lib/utils/tipGenerator.js` lines 11-73. -/

def tipsRecyclable : List String :=
  ["Recycle this plastic bottle to save energy—repurpose it as a vase or storage container!",
   "Great find! Recycling this aluminum can saves 95% of the energy needed to make a new one.",
   "This cardboard can be recycled up to 7 times—flatten it first to save space in your recycling bin.",
   "Paper recycling tip: Remove any plastic tape or staples before putting this in your recycling bin.",
   "Glass containers like this can be recycled endlessly without losing quality—rinse it clean first!",
   "Plastic containers are perfect for organizing small items after you recycle the original contents.",
   "Metal items like this are highly valuable to recyclers—clean it and put it in your metal recycling bin."]

def tipsCompostable : List String :=
  ["Add this organic waste to your compost bin—it'll become nutrient-rich soil in 3-6 months!",
   "Food scraps like this create methane in landfills, but composting them helps reduce greenhouse gases.",
   "Perfect for composting! Mix with brown materials like dry leaves for the best decomposition.",
   "This organic material will feed beneficial microorganisms in your compost pile—nature's recycling!",
   "Composting this item returns valuable nutrients to the soil instead of wasting them in a landfill.",
   "Great compost material! Chop it into smaller pieces to speed up the decomposition process.",
   "This biodegradable item belongs in your green waste bin or home compost—it'll break down naturally!"]

def tipsTrash : List String :=
  ["This item goes to trash, but consider buying less packaging next time to reduce waste.",
   "Non-recyclable waste like this reminds us to choose reusable alternatives when possible.",
   "While this goes in the trash, look for similar products with less packaging in the future.",
   "This belongs in your general waste bin—try to minimize items like this by choosing sustainable alternatives.",
   "Trash disposal tip: Wrap this securely to prevent litter and consider eco-friendly alternatives next time.",
   "This item can't be recycled, but you can reduce future waste by choosing products with minimal packaging."]

def tipsUnknown : List String :=
  ["I'm not sure about this item—check your local recycling guidelines or ask your waste management provider.",
   "When in doubt, research this item online or contact your local environmental services for proper disposal.",
   "This item needs manual inspection—look for recycling symbols or check with your local waste facility.",
   "Try scanning again with better lighting or a clearer view of the item for more accurate results.",
   "If the item is unclear, clean it first and scan again, or check the packaging for disposal instructions."]

def tipsDetectionError : List String :=
  ["Scanning had an issue—try again with better lighting and a steady hand.",
   "Technical error occurred—ensure good lighting and try scanning the item again.",
   "Detection failed—clean the camera lens and try scanning in better light conditions."]

def tipsNoClearObject : List String :=
  ["Try moving the camera closer to the item and ensure it's well-lit for better detection.",
   "Make sure the item fills most of the camera frame and try scanning again.",
   "Improve lighting conditions and hold the camera steady for clearer object detection."]

def tipsTryAdjusting : List String :=
  ["Better lighting and camera angle will help identify this item more accurately.",
   "Move to a well-lit area and try different angles to get a clearer scan of the item.",
   "Clean lighting and a steady camera position will improve waste classification results."]

def tipsLowLight : List String :=
  ["Low light affects scanning accuracy—try moving to a brighter area for better results.",
   "Good lighting is key for accurate waste classification—find a well-lit spot and try again.",
   "Bright, even lighting helps the AI identify waste items more accurately."]

/-- The `tipTemplates` object: key-to-pool mapping, in source order. -/
def tipTemplates : List (String × List String) :=
  [("Recyclable", tipsRecyclable),
   ("Compostable", tipsCompostable),
   ("Trash", tipsTrash),
   ("Unknown", tipsUnknown),
   ("Detection error", tipsDetectionError),
   ("No clear object detected", tipsNoClearObject),
   ("Try adjusting camera angle or lighting", tipsTryAdjusting),
   ("Low light detected", tipsLowLight)]

/-- `tipTemplates[category]` property lookup (own keys only). -/
def lookupPool (category : String) : Option (List String) :=
  (tipTemplates.find? (fun p => p.1 == category)).map (fun p => p.2)

/-- `categoryTips[Math.floor(Math.random() * categoryTips.length)]`, with
the random draw supplied as `r`. -/
def pickTip (r : Nat → Nat) (pool : List String) : String :=
  pool.getD (r pool.length % pool.length) ""

/-- The caveat appended to recursively resolved "Possible <X>" tips
(`src/lib/utils/tipGenerator.js` line 123). -/
def lowConfidenceSuffix : String :=
  " (Low confidence - consider scanning again for better results.)"

/-- `generateTip` from `src/lib/utils/tipGenerator.js` lines 88-135, with
explicit recursion fuel (the source recursion is unguarded) and explicit
random index source.  A `String`-typed input is falsy exactly when it is
empty, which is the `!category` half of the source's validation guard;
non-string JavaScript values are outside this model. -/
def generateTip : Nat → (Nat → Nat) → String → Option String
  | 0, _, _ => none
  | fuel + 1, r, category =>
    if category = "" then
      some (tipsUnknown.getD 0 "")
    else
      match lookupPool category with
      | some categoryTips => some (pickTip r categoryTips)
      | none =>
        if jsIncludes category "error" || jsIncludes category "Error" then
          some (pickTip r tipsDetectionError)
        else if jsIncludes category "No clear object" || jsIncludes category "no clear object" then
          some (pickTip r tipsNoClearObject)
        else if jsIncludes category "adjusting" || jsIncludes category "lighting" then
          some (pickTip r tipsTryAdjusting)
        else if jsIncludes category "Possible" then
          (generateTip fuel r (jsReplaceFirst category "Possible ")).map
            (fun tip => tip ++ lowConfidenceSuffix)
        else
          some (pickTip r ((lookupPool (jsCapitalize category)).getD tipsUnknown))

/-- A drawn tip is an element of the pool it is drawn from. -/
theorem pickTip_mem (r : Nat → Nat) (pool : List String) (h : pool ≠ []) :
    pickTip r pool ∈ pool := by
  have hlen : 0 < pool.length := List.length_pos.mpr h
  have hlt : r pool.length % pool.length < pool.length := Nat.mod_lt _ hlen
  unfold pickTip
  rw [List.getD_eq_getElem _ _ hlt]
  exact List.getElem_mem hlt

/-- Evaluation of the display-worthy branch of `handleDetectionResult`. -/
theorem handleDetectionResult_display_eq (st : CameraState) (res : ClassificationResult)
    (h : res.confidence ≥ CONFIDENCE_DISPLAY_THRESHOLD) :
    handleDetectionResult st res =
      ({ st with noDetectionCount := 0, lowLightWarning := false },
       { category := res.category, confidence := res.confidence,
         timestamp := res.timestamp }) := by
  have hlow : ¬ res.confidence < LOW_CONFIDENCE_THRESHOLD := by
    rw [CONFIDENCE_DISPLAY_THRESHOLD] at h
    rw [LOW_CONFIDENCE_THRESHOLD]
    intro hc
    linarith
  simp [handleDetectionResult, hlow, h]

/-- Evaluation of the middle (low-confidence "Possible") branch of
`handleDetectionResult`. -/
theorem handleDetectionResult_mid_eq (st : CameraState) (res : ClassificationResult)
    (h1 : LOW_CONFIDENCE_THRESHOLD ≤ res.confidence)
    (h2 : res.confidence < CONFIDENCE_DISPLAY_THRESHOLD) :
    handleDetectionResult st res =
      (st,
       { category := "Possible " ++ res.category, confidence := res.confidence,
         timestamp := res.timestamp, isLowConfidence := true }) := by
  have hlow : ¬ res.confidence < LOW_CONFIDENCE_THRESHOLD := not_lt.mpr h1
  have hdisp : ¬ res.confidence ≥ CONFIDENCE_DISPLAY_THRESHOLD := not_le.mpr h2
  simp [handleDetectionResult, hlow, hdisp]

/-- C1: in the sub-0.1 bucket the interpreter emits only the two fixed
no-detection-family labels (independent of the input category, hence
never the raw category); the help-message variant appears exactly when
the incremented counter reaches 5, resetting it to 0, otherwise the plain
label appears with the counter incremented; and on the concrete sequence
of five calls at confidence 0.05 the 5th call (and no earlier one) emits
"Try adjusting camera angle or lighting" with `isHelpMessage = true` and
counter 0, while a 6th such call emits the plain "No clear object
detected" label with the counter back at 1. -/
theorem C1_no_detection_family :
    (∀ (st : CameraState) (res : ClassificationResult),
        res.confidence < LOW_CONFIDENCE_THRESHOLD →
        (((handleDetectionResult st res).2.category = "No clear object detected" ∧
          (handleDetectionResult st res).2.isHelpMessage = false ∧
          (handleDetectionResult st res).1.noDetectionCount = st.noDetectionCount + 1) ∨
         ((handleDetectionResult st res).2.category = "Try adjusting camera angle or lighting" ∧
          (handleDetectionResult st res).2.isHelpMessage = true ∧
          (handleDetectionResult st res).1.noDetectionCount = 0)) ∧
        (∀ c : String,
          (handleDetectionResult st { res with category := c }).2.category =
            (handleDetectionResult st res).2.category)) ∧
    (∀ (st : CameraState) (res : ClassificationResult),
        res.confidence < LOW_CONFIDENCE_THRESHOLD →
        ((handleDetectionResult st res).2.isHelpMessage = true ↔
          st.noDetectionCount + 1 ≥ NO_DETECTION_THRESHOLD)) ∧
    ((runDetections initialCameraState (List.replicate 5 lowResult)).2.map
        (fun d => d.category) =
      ["No clear object detected", "No clear object detected", "No clear object detected",
       "No clear object detected", "Try adjusting camera angle or lighting"]) ∧
    ((runDetections initialCameraState (List.replicate 5 lowResult)).2.map
        (fun d => d.isHelpMessage) = [false, false, false, false, true]) ∧
    ((runDetections initialCameraState (List.replicate 5 lowResult)).1.noDetectionCount = 0) ∧
    ((runDetections initialCameraState (List.replicate 6 lowResult)).2.map
        (fun d => d.category) =
      ["No clear object detected", "No clear object detected", "No clear object detected",
       "No clear object detected", "Try adjusting camera angle or lighting",
       "No clear object detected"]) ∧
    ((runDetections initialCameraState (List.replicate 6 lowResult)).1.noDetectionCount = 1) := by
  refine ⟨?_, ?_, ?_, ?_, ?_, ?_, ?_⟩
  · intro st res h
    constructor
    · by_cases h5 : st.noDetectionCount + 1 ≥ NO_DETECTION_THRESHOLD
      · right
        simp [handleDetectionResult, h, h5]
      · left
        simp [handleDetectionResult, h, h5]
    · intro c
      by_cases h5 : st.noDetectionCount + 1 ≥ NO_DETECTION_THRESHOLD <;>
        simp [handleDetectionResult, h, h5]
  · intro st res h
    by_cases h5 : st.noDetectionCount + 1 ≥ NO_DETECTION_THRESHOLD <;>
      simp [handleDetectionResult, h, h5]
  all_goals
    norm_num [runDetections, handleDetectionResult, lowResult, initialCameraState,
      LOW_CONFIDENCE_THRESHOLD, CONFIDENCE_DISPLAY_THRESHOLD, NO_DETECTION_THRESHOLD,
      List.replicate]

/-- Witness for C1's quantified parts at a fresh state and confidence
0.05. -/
theorem C1_no_detection_family_witness :
    lowResult.confidence < LOW_CONFIDENCE_THRESHOLD ∧
    ((handleDetectionResult initialCameraState lowResult).2.isHelpMessage = true ↔
      initialCameraState.noDetectionCount + 1 ≥ NO_DETECTION_THRESHOLD) :=
  ⟨by norm_num [lowResult, LOW_CONFIDENCE_THRESHOLD],
   C1_no_detection_family.2.1 initialCameraState lowResult
     (by norm_num [lowResult, LOW_CONFIDENCE_THRESHOLD])⟩

/-- C2: every classification result with confidence at or above the 0.3
display threshold (including confidence exactly 1) makes
`handleDetectionResult` emit the input category string verbatim, with
`isLowConfidence = false`, and reset `noDetectionCount` to 0 whatever its
prior value. -/
theorem C2_display_worthy_verbatim (st : CameraState) (res : ClassificationResult)
    (h : res.confidence ≥ CONFIDENCE_DISPLAY_THRESHOLD) :
    (handleDetectionResult st res).2.category = res.category ∧
    (handleDetectionResult st res).2.isLowConfidence = false ∧
    (handleDetectionResult st res).2.isHelpMessage = false ∧
    (handleDetectionResult st res).1.noDetectionCount = 0 := by
  rw [handleDetectionResult_display_eq st res h]
  exact ⟨rfl, rfl, rfl, rfl⟩

/-- Witness for C2 at confidence exactly 1 with a prior counter of 7. -/
theorem C2_display_worthy_verbatim_witness :
    (⟨"Recyclable", 1, 0⟩ : ClassificationResult).confidence ≥ CONFIDENCE_DISPLAY_THRESHOLD ∧
    ((handleDetectionResult ⟨7, 2, true⟩ ⟨"Recyclable", 1, 0⟩).2.category = "Recyclable" ∧
     (handleDetectionResult ⟨7, 2, true⟩ ⟨"Recyclable", 1, 0⟩).2.isLowConfidence = false ∧
     (handleDetectionResult ⟨7, 2, true⟩ ⟨"Recyclable", 1, 0⟩).2.isHelpMessage = false ∧
     (handleDetectionResult ⟨7, 2, true⟩ ⟨"Recyclable", 1, 0⟩).1.noDetectionCount = 0) :=
  ⟨by norm_num [CONFIDENCE_DISPLAY_THRESHOLD],
   C2_display_worthy_verbatim ⟨7, 2, true⟩ ⟨"Recyclable", 1, 0⟩
     (by norm_num [CONFIDENCE_DISPLAY_THRESHOLD])⟩

/-- C3: every classification result with confidence in [0.1, 0.3) makes
`handleDetectionResult` emit "Possible " prepended to the input category,
with `isLowConfidence = true`, and leave the whole rolling state — in
particular both the `noDetectionCount` and `inferenceErrors` counters —
unchanged. -/
theorem C3_possible_bucket (st : CameraState) (res : ClassificationResult)
    (h1 : LOW_CONFIDENCE_THRESHOLD ≤ res.confidence)
    (h2 : res.confidence < CONFIDENCE_DISPLAY_THRESHOLD) :
    (handleDetectionResult st res).2.category = "Possible " ++ res.category ∧
    (handleDetectionResult st res).2.isLowConfidence = true ∧
    (handleDetectionResult st res).1 = st := by
  rw [handleDetectionResult_mid_eq st res h1 h2]
  exact ⟨rfl, rfl, rfl⟩

/-- Witness for C3 at confidence 0.22 with nonzero prior counters. -/
theorem C3_possible_bucket_witness :
    LOW_CONFIDENCE_THRESHOLD ≤ (⟨"Trash", 22/100, 0⟩ : ClassificationResult).confidence ∧
    (⟨"Trash", 22/100, 0⟩ : ClassificationResult).confidence < CONFIDENCE_DISPLAY_THRESHOLD ∧
    ((handleDetectionResult ⟨3, 1, true⟩ ⟨"Trash", 22/100, 0⟩).2.category = "Possible Trash" ∧
     (handleDetectionResult ⟨3, 1, true⟩ ⟨"Trash", 22/100, 0⟩).2.isLowConfidence = true ∧
     (handleDetectionResult ⟨3, 1, true⟩ ⟨"Trash", 22/100, 0⟩).1 = (⟨3, 1, true⟩ : CameraState)) :=
  ⟨by norm_num [LOW_CONFIDENCE_THRESHOLD],
   by norm_num [CONFIDENCE_DISPLAY_THRESHOLD],
   C3_possible_bucket ⟨3, 1, true⟩ ⟨"Trash", 22/100, 0⟩
     (by norm_num [LOW_CONFIDENCE_THRESHOLD])
     (by norm_num [CONFIDENCE_DISPLAY_THRESHOLD])⟩

/-- C4 counterexample: at confidence exactly 0.1 the code takes the
low-confidence branch and emits the "Possible" variant, not a
no-detection label, refuting the claim's second half at the concrete
input category "Trash", confidence 1/10, fresh state. -/
theorem C4_boundary_counterexample :
    (handleDetectionResult initialCameraState ⟨"Trash", 1/10, 0⟩).2.category
        = "Possible Trash" ∧
    (handleDetectionResult initialCameraState ⟨"Trash", 1/10, 0⟩).2.isLowConfidence = true ∧
    "Possible Trash" ≠ "No clear object detected" ∧
    "Possible Trash" ≠ "Try adjusting camera angle or lighting" := by
  have hmid := handleDetectionResult_mid_eq initialCameraState ⟨"Trash", 1/10, 0⟩
    (by norm_num [LOW_CONFIDENCE_THRESHOLD])
    (by norm_num [LOW_CONFIDENCE_THRESHOLD, CONFIDENCE_DISPLAY_THRESHOLD])
  rw [hmid]
  exact ⟨rfl, rfl, by decide, by decide⟩

/-- C4 amended: confidence exactly 0.3 is display-worthy (raw category
shown), while confidence exactly 0.1 lands in the low-confidence bucket
and yields the "Possible <category>" variant — not a no-detection
label. -/
theorem C4_boundaries_amended (st : CameraState) (res : ClassificationResult) :
    (res.confidence = CONFIDENCE_DISPLAY_THRESHOLD →
      (handleDetectionResult st res).2.category = res.category ∧
      (handleDetectionResult st res).2.isLowConfidence = false) ∧
    (res.confidence = LOW_CONFIDENCE_THRESHOLD →
      (handleDetectionResult st res).2.category = "Possible " ++ res.category ∧
      (handleDetectionResult st res).2.isLowConfidence = true) := by
  constructor
  · intro h
    rw [handleDetectionResult_display_eq st res (le_of_eq h.symm)]
    exact ⟨rfl, rfl⟩
  · intro h
    have h2 : res.confidence < CONFIDENCE_DISPLAY_THRESHOLD := by
      rw [h, LOW_CONFIDENCE_THRESHOLD, CONFIDENCE_DISPLAY_THRESHOLD]
      norm_num
    rw [handleDetectionResult_mid_eq st res (le_of_eq h.symm) h2]
    exact ⟨rfl, rfl⟩

/-- Witness for the amended C4 at both boundary confidences. -/
theorem C4_boundaries_amended_witness :
    ((⟨"Trash", 3/10, 0⟩ : ClassificationResult).confidence = CONFIDENCE_DISPLAY_THRESHOLD ∧
     (handleDetectionResult initialCameraState ⟨"Trash", 3/10, 0⟩).2.category
        = (⟨"Trash", 3/10, 0⟩ : ClassificationResult).category ∧
     (handleDetectionResult initialCameraState ⟨"Trash", 3/10, 0⟩).2.isLowConfidence = false) ∧
    ((⟨"Glass", 1/10, 0⟩ : ClassificationResult).confidence = LOW_CONFIDENCE_THRESHOLD ∧
     (handleDetectionResult initialCameraState ⟨"Glass", 1/10, 0⟩).2.category
        = "Possible " ++ (⟨"Glass", 1/10, 0⟩ : ClassificationResult).category ∧
     (handleDetectionResult initialCameraState ⟨"Glass", 1/10, 0⟩).2.isLowConfidence = true) :=
  ⟨⟨by norm_num [CONFIDENCE_DISPLAY_THRESHOLD],
    (C4_boundaries_amended initialCameraState ⟨"Trash", 3/10, 0⟩).1
      (by norm_num [CONFIDENCE_DISPLAY_THRESHOLD])⟩,
   ⟨by norm_num [LOW_CONFIDENCE_THRESHOLD],
    (C4_boundaries_amended initialCameraState ⟨"Glass", 1/10, 0⟩).2
      (by norm_num [LOW_CONFIDENCE_THRESHOLD])⟩⟩

/-- C9: inside the no-detection bucket the low-light warning is activated
exactly below confidence 0.05: any result with confidence < 0.05 turns
the warning on, and any result with confidence in [0.05, 0.1) leaves the
warning exactly as it was (it is not activated). -/
theorem C9_low_light_cutoff (st : CameraState) (res : ClassificationResult) :
    (res.confidence < 5/100 →
      (handleDetectionResult st res).1.lowLightWarning = true) ∧
    (5/100 ≤ res.confidence → res.confidence < LOW_CONFIDENCE_THRESHOLD →
      (handleDetectionResult st res).1.lowLightWarning = st.lowLightWarning) := by
  constructor
  · intro h
    have hlow : res.confidence < LOW_CONFIDENCE_THRESHOLD := by
      rw [LOW_CONFIDENCE_THRESHOLD]
      linarith
    by_cases h5 : st.noDetectionCount + 1 ≥ NO_DETECTION_THRESHOLD <;>
      simp [handleDetectionResult, hlow, h, h5]
  · intro h5 hlow
    have hnot : ¬ res.confidence < 5/100 := not_lt.mpr h5
    by_cases hcnt : st.noDetectionCount + 1 ≥ NO_DETECTION_THRESHOLD <;>
      simp [handleDetectionResult, hlow, hnot, hcnt]

/-- Witness for C9 at confidences 0.01 (warning on) and 0.07 (warning
left untouched from a prior `false`). -/
theorem C9_low_light_cutoff_witness :
    ((⟨"Trash", 1/100, 0⟩ : ClassificationResult).confidence < 5/100 ∧
     (handleDetectionResult initialCameraState ⟨"Trash", 1/100, 0⟩).1.lowLightWarning = true) ∧
    (5/100 ≤ (⟨"Trash", 7/100, 0⟩ : ClassificationResult).confidence ∧
     (⟨"Trash", 7/100, 0⟩ : ClassificationResult).confidence < LOW_CONFIDENCE_THRESHOLD ∧
     (handleDetectionResult initialCameraState ⟨"Trash", 7/100, 0⟩).1.lowLightWarning
        = initialCameraState.lowLightWarning) :=
  ⟨⟨by norm_num,
    (C9_low_light_cutoff initialCameraState ⟨"Trash", 1/100, 0⟩).1 (by norm_num)⟩,
   ⟨by norm_num, by norm_num [LOW_CONFIDENCE_THRESHOLD],
    (C9_low_light_cutoff initialCameraState ⟨"Trash", 7/100, 0⟩).2
      (by norm_num) (by norm_num [LOW_CONFIDENCE_THRESHOLD])⟩⟩

/-- The detection-result path never touches the `inferenceErrors`
counter. -/
theorem handleDetectionResult_inferenceErrors (st : CameraState) (res : ClassificationResult) :
    (handleDetectionResult st res).1.inferenceErrors = st.inferenceErrors := by
  simp only [handleDetectionResult]
  split_ifs <;> rfl

/-- C8: the error path increments `inferenceErrors`; the display label
and recoverability come from first-match substring categorization of the
error message; the blocking alert is shown iff the incremented count has
reached `MAX_INFERENCE_ERRORS` (3) and the error was categorized
non-recoverable; and a successful inference resets `inferenceErrors` to
0. -/
theorem C8_error_escalation :
    (∀ (st : CameraState) (msg : String),
        (scheduleInferenceError st msg).1.inferenceErrors = st.inferenceErrors + 1) ∧
    (∀ (st : CameraState) (msg : String),
        (scheduleInferenceError st msg).2.category = (categorizeError msg).1 ∧
        (scheduleInferenceError st msg).2.isRecoverable = (categorizeError msg).2) ∧
    (∀ (st : CameraState) (msg : String),
        ((scheduleInferenceError st msg).2.showAlert = true ↔
          st.inferenceErrors + 1 ≥ MAX_INFERENCE_ERRORS ∧
            (scheduleInferenceError st msg).2.isRecoverable = false)) ∧
    (∀ msg : String, jsIncludes msg "timeout" = true →
        categorizeError msg = ("Detection taking too long - try again", true)) ∧
    (∀ msg : String, jsIncludes msg "timeout" = false → jsIncludes msg "camera" = true →
        categorizeError msg = ("Camera error - check permissions", false)) ∧
    (∀ msg : String, jsIncludes msg "timeout" = false → jsIncludes msg "camera" = false →
        (jsIncludes msg "model" = true ∨ jsIncludes msg "tensor" = true) →
        categorizeError msg = ("AI model error - restart app if this persists", false)) ∧
    (∀ msg : String, jsIncludes msg "timeout" = false → jsIncludes msg "camera" = false →
        jsIncludes msg "model" = false → jsIncludes msg "tensor" = false →
        jsIncludes msg "memory" = true →
        categorizeError msg = ("Low memory - close other apps", false)) ∧
    (∀ msg : String, jsIncludes msg "timeout" = false → jsIncludes msg "camera" = false →
        jsIncludes msg "model" = false → jsIncludes msg "tensor" = false →
        jsIncludes msg "memory" = false →
        categorizeError msg = ("Detection error", true)) ∧
    (∀ (st : CameraState) (res : ClassificationResult),
        (scheduleInferenceSuccess st res).1.inferenceErrors = 0) := by
  refine ⟨fun st msg => rfl, fun st msg => ⟨rfl, rfl⟩, ?_, ?_, ?_, ?_, ?_, ?_,
    fun st res => handleDetectionResult_inferenceErrors { st with inferenceErrors := 0 } res⟩
  · intro st msg
    simp [scheduleInferenceError, handleInferenceError, ge_iff_le]
  · intro msg h
    simp [categorizeError, h]
  · intro msg h1 h2
    simp [categorizeError, h1, h2]
  · intro msg h1 h2 h3
    rcases h3 with h3 | h3 <;> simp [categorizeError, h1, h2, h3]
  · intro msg h1 h2 h3 h4 h5
    simp [categorizeError, h1, h2, h3, h4, h5]
  · intro msg h1 h2 h3 h4 h5
    simp [categorizeError, h1, h2, h3, h4, h5]

/-- Witness for C8's substring categorization at the message the timeout
rejection actually carries, "Inference timeout". -/
theorem C8_error_escalation_witness :
    jsIncludes "Inference timeout" "timeout" = true ∧
    categorizeError "Inference timeout" = ("Detection taking too long - try again", true) :=
  ⟨by decide, C8_error_escalation.2.2.2.1 "Inference timeout" (by decide)⟩

/-- C5 counterexample: the key "ERROR" contains "error" up to letter
case, yet matches neither of the two literal casings the code tests, so
it falls through to the Unknown pool instead of the "Detection error"
pool — the substring step is not case-insensitive. -/
theorem C5_uppercase_error_counterexample :
    generateTip 2 (fun _ => 0) "ERROR" = some (tipsUnknown.getD 0 "") ∧
    tipsUnknown.getD 0 "" ∉ tipsDetectionError ∧
    jsIncludes "ERROR" "error" = false ∧
    jsIncludes "ERROR" "Error" = false := by
  exact ⟨rfl, by decide, by decide, by decide⟩

/-- C5 amended: the resolution order is first-match-wins — exact key
match, then the substring rules, then the "Possible" pattern, then
case-normalized retry, then the Unknown fallback — but the substring
step matches only the literal casings "error"/"Error",
"No clear object"/"no clear object" and lowercase "adjusting"/"lighting";
it is not case-insensitive in general (the all-caps key "ERROR" falls
through to the Unknown pool). -/
theorem C5_resolution_order_amended :
    (∀ (r : Nat → Nat) (k : String) (pool : List String), k ≠ "" →
        lookupPool k = some pool → pool ≠ [] →
        ∃ t ∈ pool, generateTip 2 r k = some t) ∧
    (∀ (r : Nat → Nat) (k : String), k ≠ "" → lookupPool k = none →
        (jsIncludes k "error" = true ∨ jsIncludes k "Error" = true) →
        ∃ t ∈ tipsDetectionError, generateTip 2 r k = some t) ∧
    (∀ (r : Nat → Nat) (k : String), k ≠ "" → lookupPool k = none →
        jsIncludes k "error" = false → jsIncludes k "Error" = false →
        (jsIncludes k "No clear object" = true ∨ jsIncludes k "no clear object" = true) →
        ∃ t ∈ tipsNoClearObject, generateTip 2 r k = some t) ∧
    (∀ (r : Nat → Nat) (k : String), k ≠ "" → lookupPool k = none →
        jsIncludes k "error" = false → jsIncludes k "Error" = false →
        jsIncludes k "No clear object" = false → jsIncludes k "no clear object" = false →
        (jsIncludes k "adjusting" = true ∨ jsIncludes k "lighting" = true) →
        ∃ t ∈ tipsTryAdjusting, generateTip 2 r k = some t) ∧
    generateTip 2 (fun _ => 0) "ERROR" = some (tipsUnknown.getD 0 "") := by
  refine ⟨?_, ?_, ?_, ?_, rfl⟩
  · intro r k pool hk hlook hne
    refine ⟨pickTip r pool, pickTip_mem r pool hne, ?_⟩
    simp [generateTip, hk, hlook]
  · intro r k hk hlook herr
    refine ⟨pickTip r tipsDetectionError, pickTip_mem r _ (by decide), ?_⟩
    rcases herr with h | h <;> simp [generateTip, hk, hlook, h]
  · intro r k hk hlook he1 he2 hnc
    refine ⟨pickTip r tipsNoClearObject, pickTip_mem r _ (by decide), ?_⟩
    rcases hnc with h | h <;> simp [generateTip, hk, hlook, he1, he2, h]
  · intro r k hk hlook he1 he2 hn1 hn2 hadj
    refine ⟨pickTip r tipsTryAdjusting, pickTip_mem r _ (by decide), ?_⟩
    rcases hadj with h | h <;> simp [generateTip, hk, hlook, he1, he2, hn1, hn2, h]

/-- Witness for the amended C5: the free-text key
"some random error occurred" misses every exact key, matches the
lowercase "error" substring rule and draws from the "Detection error"
pool. -/
theorem C5_resolution_order_amended_witness :
    ("some random error occurred" ≠ "") ∧
    lookupPool "some random error occurred" = none ∧
    jsIncludes "some random error occurred" "error" = true ∧
    (∃ t ∈ tipsDetectionError,
      generateTip 2 (fun _ => 1) "some random error occurred" = some t) :=
  ⟨by decide, by decide, by decide,
   C5_resolution_order_amended.2.1 (fun _ => 1) "some random error occurred"
     (by decide) (by decide) (Or.inl (by decide))⟩

/-- C6 (code bug): the key "Possible" contains the substring "Possible"
but not "Possible ", so `category.replace("Possible ", "")` returns the
key unchanged and `generateTip` calls itself with the same argument: the
recursion never completes, at any depth — in JavaScript, a stack
overflow instead of the promised total, non-empty-string result. -/
theorem C6_possible_key_diverges :
    ∀ (fuel : Nat) (r : Nat → Nat), generateTip fuel r "Possible" = none := by
  intro fuel
  induction fuel with
  | zero => intro r; rfl
  | succ n ih =>
    intro r
    show (generateTip n r (jsReplaceFirst "Possible" "Possible ")).map
        (fun tip => tip ++ lowConfidenceSuffix) = none
    have hrep : jsReplaceFirst "Possible" "Possible " = "Possible" := rfl
    rw [hrep, ih r]
    rfl

/-- C7: for each of the four canonical categories, the key
"Possible <Category>" strips the prefix, resolves the category, and
returns a tip of that category's pool with the fixed low-confidence
caveat suffix appended. -/
theorem C7_possible_prefix_recursion (r : Nat → Nat) :
    (∃ t ∈ tipsRecyclable,
      generateTip 2 r "Possible Recyclable" = some (t ++ lowConfidenceSuffix)) ∧
    (∃ t ∈ tipsCompostable,
      generateTip 2 r "Possible Compostable" = some (t ++ lowConfidenceSuffix)) ∧
    (∃ t ∈ tipsTrash,
      generateTip 2 r "Possible Trash" = some (t ++ lowConfidenceSuffix)) ∧
    (∃ t ∈ tipsUnknown,
      generateTip 2 r "Possible Unknown" = some (t ++ lowConfidenceSuffix)) :=
  ⟨⟨pickTip r tipsRecyclable, pickTip_mem r _ (by decide), rfl⟩,
   ⟨pickTip r tipsCompostable, pickTip_mem r _ (by decide), rfl⟩,
   ⟨pickTip r tipsTrash, pickTip_mem r _ (by decide), rfl⟩,
   ⟨pickTip r tipsUnknown, pickTip_mem r _ (by decide), rfl⟩⟩

/-- C10: a falsy key — for `String`-typed input, exactly the empty
string — deterministically yields the first tip of the Unknown pool,
the same fixed string for every random source. -/
theorem C10_falsy_first_unknown_tip :
    ∀ (fuel : Nat) (r : Nat → Nat),
      generateTip (fuel + 1) r "" = some (tipsUnknown.getD 0 "") ∧
      generateTip (fuel + 1) r "" =
        some "I'm not sure about this item—check your local recycling guidelines or ask your waste management provider." :=
  fun _ _ => ⟨rfl, rfl⟩

end EcoScan
